import Mathlib

/-!
Shallow embedding of the byImpf appointment checker.

The package version of the client lives in src/byimpf/client.py (class
ImpfChecker together with the AppointmentOptions dataclass and the Variant,
VaccinationType and Vaccine enums); the standalone script src/impf.py carries
an earlier version of the same class plus the command-line driver main().
Network requests are modelled by passing the response the server would give as
an explicit argument; Python exceptions are modelled with Except; the mutable
token fields of ImpfChecker are modelled as an explicit state record that every
method takes and returns.
-/

namespace ByImpf

/-- Calendar date. Python datetime.date objects compare lexicographically on
(year, month, day). -/
structure Date where
  year : Nat
  month : Nat
  day : Nat
deriving DecidableEq, Repr

/-- Strict order on dates, as Python date comparison `a < b`. -/
def Date.lt (a b : Date) : Bool :=
  (a.year < b.year) ||
    (a.year == b.year &&
      ((a.month < b.month) || (a.month == b.month && a.day < b.day)))

/-- Variant enum (client.py lines 24-26). -/
inductive Variant
  | OMICRON_BA_1
  | OMICRON_BA_4_5
deriving DecidableEq, Repr

/-- The value attached to each Variant member. -/
def Variant.value : Variant → String
  | .OMICRON_BA_1 => "OMC_BA1"
  | .OMICRON_BA_4_5 => "OMC_BA4-5"

/-- VaccinationType enum (client.py lines 29-32). -/
inductive VaccinationType
  | FIRST
  | SECOND
  | BOOST
deriving DecidableEq, Repr

/-- The value attached to each VaccinationType member. -/
def VaccinationType.value : VaccinationType → String
  | .FIRST => "FIRST"
  | .SECOND => "SECOND"
  | .BOOST => "BOOST"

/-- Vaccine enum (client.py lines 35-44). -/
inductive Vaccine
  | ASTRA_ZENECA
  | BIONTECH_PFIZER
  | MODERNA
  | JANSSEN
  | NUVAXOVID
  | VALNEVA
  | BIONTECH_PFIZER_BA1
  | MODERNA_SPIKEVAX_0
  | BIONTECH_PFIZER_BA45
deriving DecidableEq, Repr

/-- The value attached to each Vaccine member. -/
def Vaccine.value : Vaccine → String
  | .ASTRA_ZENECA => "001"
  | .BIONTECH_PFIZER => "002"
  | .MODERNA => "003"
  | .JANSSEN => "005"
  | .NUVAXOVID => "006"
  | .VALNEVA => "008"
  | .BIONTECH_PFIZER_BA1 => "009"
  | .MODERNA_SPIKEVAX_0 => "010"
  | .BIONTECH_PFIZER_BA45 => "011"

/-- A value stored in a JSON appointment payload: an opaque string, a date
string (kept parsed, since the code only ever feeds it to
date.fromisoformat), or the reminderChannel object added by _book. -/
inductive PayloadVal
  | str (s : String)
  | date (d : Date)
  | reminder (byEmail bySms : Bool)
deriving DecidableEq, Repr

/-- A JSON object payload, as a key-value association list. -/
abbrev Payload := List (String × PayloadVal)

/-- Dictionary lookup, `p[k]` returning None when the key is absent. -/
def Payload.get : Payload → String → Option PayloadVal
  | [], _ => none
  | (k', v) :: rest, k => if k' = k then some v else Payload.get rest k

/-- Python dictionary assignment `p[k] = v`: replaces the value when the key
is present, otherwise appends the new key. -/
def Payload.set : Payload → String → PayloadVal → Payload
  | [], k, v => [(k, v)]
  | (k', v') :: rest, k, v =>
      if k' = k then (k, v) :: rest else (k', v') :: Payload.set rest k v

/-- AppointmentOptions dataclass (client.py lines 55-74). The Python type
annotations are not Optional, but the code treats every field except book and
vaccination_type as possibly None (find checks earliest_day is None,
_find_appointment checks variant and first_vaccine against None, and the
latest_day filter is guarded by truthiness), so those fields are Option here. -/
structure AppointmentOptions where
  earliest_day : Option Date
  latest_day : Option Date
  book : Bool
  variant : Option Variant
  first_vaccine : Option Vaccine
  vaccination_type : VaccinationType
deriving DecidableEq, Repr

/-- The generated dataclass constructor of AppointmentOptions: it stores the
six fields exactly as given. The dataclass declares no __post_init__ and no
other validation, so construction always succeeds. -/
def AppointmentOptions.make (earliest_day latest_day : Option Date)
    (book : Bool) (variant : Option Variant) (first_vaccine : Option Vaccine)
    (vaccination_type : VaccinationType) : AppointmentOptions :=
  { earliest_day := earliest_day
    latest_day := latest_day
    book := book
    variant := variant
    first_vaccine := first_vaccine
    vaccination_type := vaccination_type }

/-- The mutable token state of an ImpfChecker instance: the fields
_auth_token, _auth_token_expiry and _refresh_token set up in __init__
(client.py lines 95-109). The expiry is an absolute timestamp in seconds. -/
structure ClientState where
  auth_token : Option String
  auth_token_expiry : Option Int
  refresh_token : Option String
deriving DecidableEq, Repr

/-- Python exceptions that the modelled methods can raise. -/
inductive PyError
  | httpError
  | jsonError
  | keyError
  | typeError
deriving DecidableEq, Repr

/-- Token state right after __init__ (client.py lines 107-109): all three
fields are None. -/
def init_state : ClientState :=
  { auth_token := none, auth_token_expiry := none, refresh_token := none }

/-- reset_session (client.py lines 132-137): replaces the HTTP session and
sets _auth_token and _refresh_token to None. Note that _auth_token_expiry is
not touched. -/
def ImpfChecker.reset_session (s : ClientState) : ClientState :=
  { s with auth_token := none, refresh_token := none }

/-- is_auth_token_expired (client.py lines 227-233): falsy when the expiry is
None, otherwise whether less than 30 seconds of lifetime remain. -/
def ImpfChecker.is_auth_token_expired (s : ClientState) (now : Int) : Bool :=
  match s.auth_token_expiry with
  | none => false
  | some e => decide (e - now < 30)

/-- Truthiness of an optional string, as Python `if code:` — None and the
empty string are falsy. -/
def str_opt_truthy : Option String → Bool
  | none => false
  | some s => !(s == "")

/-- The decoded JSON body of a token-endpoint response
{access_token, refresh_token, expires_in}. -/
structure TokenBody where
  access_token : String
  refresh_token : String
  expires_in : Int
deriving DecidableEq, Repr

/-- A token-endpoint response: its HTTP status and, when the body decodes as
JSON with the three expected keys, the decoded body. -/
structure TokenResponse where
  status : Nat
  body : Option TokenBody
deriving DecidableEq, Repr

/-- requests' Response.raise_for_status: raises HTTPError exactly for client
and server error statuses, 400 to 599. -/
def raise_for_status (status : Nat) : Bool :=
  400 ≤ status && status < 600

/-- refresh_auth_token (client.py lines 235-277). With no code and a token
that is not about to expire it returns immediately. Otherwise it posts to the
token endpoint (the authorization_code form when a code is given, the
refresh_token form otherwise; the response is the rsp argument either way),
calls raise_for_status, decodes the JSON body, and assigns _auth_token,
_auth_token_expiry and _refresh_token together in one tuple assignment. Any
raise leaves the three fields unchanged, since the assignment is the final
statement. -/
def ImpfChecker.refresh_auth_token (s : ClientState) (now : Int)
    (code : Option String) (rsp : TokenResponse) : Except PyError ClientState :=
  if !(str_opt_truthy code) && !(ImpfChecker.is_auth_token_expired s now) then
    .ok s
  else if raise_for_status rsp.status then
    .error .httpError
  else
    match rsp.body with
    | none => .error .jsonError
    | some b =>
        .ok { auth_token := some b.access_token
              auth_token_expiry := some (now + b.expires_in)
              refresh_token := some b.refresh_token }

/-- The environment a _login call runs against: the status of the GET for the
login page, whether the page contains the form with id kc-form-login, the
status of the credential POST, the authorization code carried in the fragment
of the redirect Location header (None when absent), and the token-endpoint
response for the subsequent code exchange. -/
structure LoginEnv where
  login_page_status : Nat
  login_form_present : Bool
  login_status : Nat
  auth_code : Option String
  token_rsp : TokenResponse
deriving DecidableEq, Repr

/-- _login (client.py lines 204-225): fetches the login page
(raise_for_status), locates the kc-form-login form (subscripting None raises
TypeError when it is absent), posts the credentials (raise_for_status),
extracts the code from the redirect fragment (a missing code raises), and
exchanges it via refresh_auth_token. Arming the recurring schedule job has no
effect on the token fields and is elided. -/
def ImpfChecker.login (s : ClientState) (now : Int) (env : LoginEnv) :
    Except PyError ClientState :=
  if raise_for_status env.login_page_status then .error .httpError
  else if !env.login_form_present then .error .typeError
  else if raise_for_status env.login_status then .error .httpError
  else
    match env.auth_code with
    | none => .error .keyError
    | some code => ImpfChecker.refresh_auth_token s now (some code) env.token_rsp

/-- Result of the auth_token accessor: the token returned together with the
state after the call, or exit(1), or a propagated exception. -/
inductive AuthTokenResult
  | ok (s : ClientState) (token : Option String)
  | exited
  | raised (e : PyError)
deriving DecidableEq, Repr

/-- auth_token (client.py lines 86-93): when _auth_token is None it runs the
full login flow, turning an HTTPError into exit(1); then it returns
_auth_token. When a token is stored, the body performs no check at all — in
particular no expiry check — and returns the stored token unchanged. -/
def ImpfChecker.auth_token (s : ClientState) (now : Int) (env : LoginEnv) :
    AuthTokenResult :=
  match s.auth_token with
  | some _ => .ok s s.auth_token
  | none =>
      match ImpfChecker.login s now env with
      | .ok s' => .ok s' s'.auth_token
      | .error .httpError => .exited
      | .error e => .raised e

/-- The query parameters of the search GET built by _find_appointment
(client.py lines 296-307): fixed timeOfDay and lastTime, lastDate from
earliest_day, the vaccination type value, and the variant and
firstVaccinationVaccine parameters only when the corresponding option is not
None. -/
structure SearchRequest where
  timeOfDay : String
  lastDate : Option Date
  lastTime : String
  vaccinationType : String
  variant : Option String
  firstVaccinationVaccine : Option String
deriving DecidableEq, Repr

/-- Builds the search query parameters from the options
(client.py lines 296-307). -/
def ImpfChecker.search_params (options : AppointmentOptions) : SearchRequest :=
  { timeOfDay := "ALL_DAY"
    lastDate := options.earliest_day
    lastTime := "00:00"
    vaccinationType := VaccinationType.value options.vaccination_type
    variant := Option.map Variant.value options.variant
    firstVaccinationVaccine := Option.map Vaccine.value options.first_vaccine }

/-- A search-endpoint response: the HTTP status and, when the body decodes as
JSON, the decoded payload. -/
structure SearchResponse where
  status : Nat
  body : Option Payload
deriving DecidableEq, Repr

/-- date.fromisoformat(appt["vaccinationDate"]): the date stored under the
vaccinationDate key, None when the key is absent or not a date. -/
def payload_date (p : Payload) : Option Date :=
  match Payload.get p "vaccinationDate" with
  | some (.date d) => some d
  | _ => none

/-- _find_appointment (client.py lines 284-337). Issues the GET with
parameters search_params options (authenticated via auth_token) and inspects
the response: 404 returns None; any non-2xx status is logged (no effect
here); 401 resets the session and returns None; every remaining status has
its body decoded as JSON (raising when it does not decode), and when
latest_day is set and the payload date lies strictly after it the offer is
dropped and None returned, otherwise the payload is returned. -/
def ImpfChecker.find_appointment (s : ClientState)
    (options : AppointmentOptions) (rsp : SearchResponse) :
    Except PyError (ClientState × Option Payload) :=
  if rsp.status = 404 then .ok (s, none)
  else if rsp.status = 401 then .ok (ImpfChecker.reset_session s, none)
  else
    match rsp.body with
    | none => .error .jsonError
    | some appt =>
        match options.latest_day with
        | none => .ok (s, some appt)
        | some ld =>
            match payload_date appt with
            | none => .error .keyError
            | some d =>
                if Date.lt ld d then .ok (s, none) else .ok (s, some appt)

/-- The body _book submits to the booking endpoint (client.py line 381): the
search payload with the reminderChannel key assigned to
{reminderByEmail: True, reminderBySms: True}. -/
def ImpfChecker.book_request_body (payload : Payload) : Payload :=
  Payload.set payload "reminderChannel" (PayloadVal.reminder true true)

/-- _book (client.py lines 373-402): adds the reminderChannel key to the
payload, posts it, and returns False for every status other than 200 after
logging an error. On 200 it notifies, formatting a message that subscripts
payload["vaccinationDate"] and payload["vaccinationTime"] (raising KeyError
when either is absent), and returns True. There is no 401 handling and no
session reset in this method. The result carries the state (unchanged — the
method never assigns a token field), the returned boolean and the submitted
body. -/
def ImpfChecker.book (s : ClientState) (payload : Payload) (status : Nat) :
    Except PyError (ClientState × Bool × Payload) :=
  let body := ImpfChecker.book_request_body payload
  if status ≠ 200 then .ok (s, false, body)
  else
    match Payload.get body "vaccinationDate",
        Payload.get body "vaccinationTime" with
    | some _, some _ => .ok (s, true, body)
    | _, _ => .error .keyError

/-- find (client.py lines 339-371). When options.earliest_day is None the
method assigns options.earliest_day = date.today(), mutating the caller's
options object. It then calls _find_appointment; None yields False. A found
payload is logged, subscripting its vaccinationDate and vaccinationTime keys
(raising KeyError when absent); then _book is called when options.book is
set, otherwise a notification is sent and True returned. The first component
of the result is the options object as the caller sees it after the call. -/
def ImpfChecker.find (s : ClientState) (options : AppointmentOptions)
    (today : Date) (rsp : SearchResponse) (book_status : Nat) :
    AppointmentOptions × Except PyError (ClientState × Bool) :=
  let options :=
    if options.earliest_day = none then
      { options with earliest_day := some today }
    else options
  (options,
    match ImpfChecker.find_appointment s options rsp with
    | .error e => .error e
    | .ok (s', none) => .ok (s', false)
    | .ok (s', some appt) =>
        match Payload.get appt "vaccinationDate",
            Payload.get appt "vaccinationTime" with
        | some _, some _ =>
            if options.book then
              match ImpfChecker.book s' appt book_status with
              | .error e => .error e
              | .ok (s'', success, _) => .ok (s'', success)
            else .ok (s', true)
        | _, _ => .error .keyError)

/-- A response of the appointment-list endpoint: the HTTP status and the
futureAppointments field of the JSON body (None when the key is absent). -/
structure UpcomingResponse where
  status : Nat
  futureAppointments : Option (List Payload)
deriving DecidableEq, Repr

/-- print_appointments (client.py lines 404-437): any status other than 200
logs an error and returns; an absent or empty futureAppointments list logs
and returns; otherwise each appointment is logged. The method never assigns a
token field, so the state passes through unchanged; the second component is
the list of appointments it walks (empty on the early returns). -/
def ImpfChecker.print_appointments (s : ClientState) (rsp : UpcomingResponse) :
    ClientState × List Payload :=
  if rsp.status ≠ 200 then (s, [])
  else
    match rsp.futureAppointments with
    | none => (s, [])
    | some [] => (s, [])
    | some appts => (s, appts)

/-- The retry loop of main (impf.py lines 376-384): tenacity Retrying with a
fixed wait and no stop condition enumerates attempts; each attempt calls
checker.find and raises when it returns False, which makes tenacity retry
after the wait; the loop ends at the first attempt whose find returns True.
outcomes i is the result of the find call on attempt i (0-based); the fuel
argument bounds the unrolling, with none meaning the loop is still running
after fuel attempts. Returns the total number of attempts performed. -/
def poll_attempts (outcomes : Nat → Bool) : Nat → Nat → Option Nat
  | _, 0 => none
  | i, fuel + 1 =>
      if outcomes i then some (i + 1) else poll_attempts outcomes (i + 1) fuel

/-- The dispatch of main (impf.py lines 376-386): with an interval configured
it runs the retry loop; with no interval it calls checker.find exactly once.
Returns the number of find attempts performed and the outcome of the final
one (the retry loop only terminates on a True outcome). -/
def run_main (interval : Option Nat) (outcomes : Nat → Bool) (fuel : Nat) :
    Option (Nat × Bool) :=
  match interval with
  | none => some (1, outcomes 0)
  | some _ =>
      match poll_attempts outcomes 0 fuel with
      | none => none
      | some n => some (n, true)

/-- The token-pair invariant: _auth_token and _refresh_token are either both
None or both set. -/
def tokens_consistent (s : ClientState) : Prop :=
  s.auth_token = none ↔ s.refresh_token = none

/-- Looking up the key a dictionary assignment just wrote yields the new
value. -/
theorem Payload.get_set_self (p : Payload) (k : String) (v : PayloadVal) :
    Payload.get (Payload.set p k v) k = some v := by
  induction p with
  | nil => simp [Payload.set, Payload.get]
  | cons hd tl ih =>
    obtain ⟨k', v'⟩ := hd
    by_cases h : k' = k
    · simp [Payload.set, Payload.get, h]
    · simp [Payload.set, Payload.get, h, ih]

/-- A dictionary assignment leaves every other key unchanged. -/
theorem Payload.get_set_of_ne (p : Payload) (k j : String) (v : PayloadVal)
    (h : j ≠ k) : Payload.get (Payload.set p k v) j = Payload.get p j := by
  induction p with
  | nil =>
    simp only [Payload.set, Payload.get]
    rw [if_neg (fun hkj => h hkj.symm)]
  | cons hd tl ih =>
    obtain ⟨k', v'⟩ := hd
    by_cases hk : k' = k
    · subst hk
      simp only [Payload.set, if_pos rfl, Payload.get]
      rw [if_neg (fun hkj => h hkj.symm), if_neg (fun hkj => h hkj.symm)]
    · simp only [Payload.set, if_neg hk, Payload.get]
      by_cases hj : k' = j
      · rw [if_pos hj, if_pos hj]
      · rw [if_neg hj, if_neg hj, ih]

/-- A date is not strictly before itself. -/
theorem Date.lt_irrefl (a : Date) : Date.lt a a = false := by
  simp [Date.lt]

/-- The retry loop stops at the first successful attempt: if attempt k
(0-based, counting from the start index i) is the first success and the fuel
covers it, the loop reports i + k + 1 attempts in total. -/
theorem poll_attempts_first_success (outcomes : Nat → Bool) :
    ∀ fuel i k, outcomes (i + k) = true →
      (∀ j, j < k → outcomes (i + j) = false) →
      k < fuel → poll_attempts outcomes i fuel = some (i + k + 1) := by
  intro fuel
  induction fuel with
  | zero => intro i k _ _ hfuel; exact absurd hfuel (Nat.not_lt_zero k)
  | succ fuel ih =>
    intro i k hk hmin hfuel
    cases k with
    | zero =>
      have h0 : outcomes i = true := by simpa using hk
      simp [poll_attempts, h0]
    | succ k' =>
      have h0 : outcomes i = false := by
        have := hmin 0 (Nat.succ_pos k')
        simpa using this
      have hk' : outcomes (i + 1 + k') = true := by
        have : i + 1 + k' = i + (k' + 1) := by omega
        rw [this]; exact hk
      have hmin' : ∀ j, j < k' → outcomes (i + 1 + j) = false := by
        intro j hj
        have : i + 1 + j = i + (j + 1) := by omega
        rw [this]
        exact hmin (j + 1) (Nat.succ_lt_succ hj)
      have hres := ih (i + 1) k' hk' hmin' (Nat.lt_of_succ_lt_succ hfuel)
      have heq : i + 1 + k' + 1 = i + (k' + 1) + 1 := by omega
      simp only [poll_attempts, h0, if_neg, Bool.false_eq_true, if_false]
      rw [hres, heq]

/-- C5: for every offer returned by the search endpoint whose date is
strictly after the latest acceptable date of the query, _find_appointment
discards it client-side and returns None; an offer dated exactly on
latest_day is not discarded and is returned. -/
theorem search_filters_offers_after_latest_day (s : ClientState)
    (opts : AppointmentOptions) (ld d : Date) (appt : Payload)
    (hld : opts.latest_day = some ld) (hdate : payload_date appt = some d) :
    (Date.lt ld d = true →
      ImpfChecker.find_appointment s opts ⟨200, some appt⟩ = .ok (s, none)) ∧
    (d = ld →
      ImpfChecker.find_appointment s opts ⟨200, some appt⟩ =
        .ok (s, some appt)) := by
  constructor
  · intro hlt
    simp [ImpfChecker.find_appointment, hld, hdate, hlt]
  · intro he
    subst he
    simp [ImpfChecker.find_appointment, hld, hdate, Date.lt_irrefl]

/-- Witness for C5 at the spec scenario: with latest day 2024-01-31, an offer
dated 2024-02-05 is filtered out, and an offer dated exactly 2024-01-31 is
returned. -/
theorem search_filters_offers_after_latest_day_witness :
    ImpfChecker.find_appointment init_state
        (AppointmentOptions.make (some ⟨2024, 1, 1⟩) (some ⟨2024, 1, 31⟩)
          false none none VaccinationType.BOOST)
        ⟨200, some [("vaccinationDate", PayloadVal.date ⟨2024, 2, 5⟩)]⟩ =
      .ok (init_state, none) ∧
    ImpfChecker.find_appointment init_state
        (AppointmentOptions.make (some ⟨2024, 1, 1⟩) (some ⟨2024, 1, 31⟩)
          false none none VaccinationType.BOOST)
        ⟨200, some [("vaccinationDate", PayloadVal.date ⟨2024, 1, 31⟩)]⟩ =
      .ok (init_state, some [("vaccinationDate", PayloadVal.date ⟨2024, 1, 31⟩)]) :=
  ⟨(search_filters_offers_after_latest_day init_state
      (AppointmentOptions.make (some ⟨2024, 1, 1⟩) (some ⟨2024, 1, 31⟩)
        false none none VaccinationType.BOOST)
      ⟨2024, 1, 31⟩ ⟨2024, 2, 5⟩
      [("vaccinationDate", PayloadVal.date ⟨2024, 2, 5⟩)] rfl rfl).1 (by decide),
   (search_filters_offers_after_latest_day init_state
      (AppointmentOptions.make (some ⟨2024, 1, 1⟩) (some ⟨2024, 1, 31⟩)
        false none none VaccinationType.BOOST)
      ⟨2024, 1, 31⟩ ⟨2024, 1, 31⟩
      [("vaccinationDate", PayloadVal.date ⟨2024, 1, 31⟩)] rfl rfl).2 rfl⟩

/-- C6: _book returns True exactly when the booking endpoint responds with
status 200, and False for every other status; it raises no exception (for
any payload carrying the vaccinationDate and vaccinationTime keys that every
payload handed over by find has), and the state is returned unchanged. -/
theorem book_success_iff_status_200 (s : ClientState) (payload : Payload)
    (status : Nat)
    (hd : ∃ v, Payload.get payload "vaccinationDate" = some v)
    (ht : ∃ v, Payload.get payload "vaccinationTime" = some v) :
    ImpfChecker.book s payload status =
      .ok (s, decide (status = 200), ImpfChecker.book_request_body payload) := by
  obtain ⟨dv, hd⟩ := hd
  obtain ⟨tv, ht⟩ := ht
  have h1 : Payload.get (ImpfChecker.book_request_body payload)
      "vaccinationDate" = some dv := by
    unfold ImpfChecker.book_request_body
    rw [Payload.get_set_of_ne _ _ _ _ (by decide)]
    exact hd
  have h2 : Payload.get (ImpfChecker.book_request_body payload)
      "vaccinationTime" = some tv := by
    unfold ImpfChecker.book_request_body
    rw [Payload.get_set_of_ne _ _ _ _ (by decide)]
    exact ht
  by_cases h : status = 200
  · subst h
    simp [ImpfChecker.book, h1, h2]
  · simp [ImpfChecker.book, h]

/-- Witness for C6: a concrete payload booked with a 200 response. -/
theorem book_success_iff_status_200_witness :
    ImpfChecker.book init_state
        [("vaccinationDate", PayloadVal.date ⟨2024, 1, 15⟩),
         ("vaccinationTime", PayloadVal.str "10:00")] 200 =
      .ok (init_state, decide ((200 : Nat) = 200),
        ImpfChecker.book_request_body
          [("vaccinationDate", PayloadVal.date ⟨2024, 1, 15⟩),
           ("vaccinationTime", PayloadVal.str "10:00")]) :=
  book_success_iff_status_200 init_state
    [("vaccinationDate", PayloadVal.date ⟨2024, 1, 15⟩),
     ("vaccinationTime", PayloadVal.str "10:00")] 200
    ⟨PayloadVal.date ⟨2024, 1, 15⟩, rfl⟩ ⟨PayloadVal.str "10:00", rfl⟩

/-- C7: the body _book submits equals the search payload with exactly the
reminderChannel key set to {reminderByEmail: True, reminderBySms: True};
every other key maps to the same value as in the payload returned by the
search. -/
theorem book_body_adds_only_reminder_channel (payload : Payload) (k : String)
    (hk : k ≠ "reminderChannel") :
    Payload.get (ImpfChecker.book_request_body payload) "reminderChannel" =
      some (PayloadVal.reminder true true) ∧
    Payload.get (ImpfChecker.book_request_body payload) k =
      Payload.get payload k :=
  ⟨Payload.get_set_self payload "reminderChannel" (PayloadVal.reminder true true),
   Payload.get_set_of_ne payload "reminderChannel" k
     (PayloadVal.reminder true true) hk⟩

/-- Witness for C7: on a concrete payload the submitted body carries the
reminder object and leaves the vaccinationDate entry untouched. -/
theorem book_body_adds_only_reminder_channel_witness :
    Payload.get (ImpfChecker.book_request_body
        [("vaccinationDate", PayloadVal.date ⟨2024, 1, 15⟩)]) "reminderChannel" =
      some (PayloadVal.reminder true true) ∧
    Payload.get (ImpfChecker.book_request_body
        [("vaccinationDate", PayloadVal.date ⟨2024, 1, 15⟩)]) "vaccinationDate" =
      Payload.get [("vaccinationDate", PayloadVal.date ⟨2024, 1, 15⟩)]
        "vaccinationDate" :=
  book_body_adds_only_reminder_channel
    [("vaccinationDate", PayloadVal.date ⟨2024, 1, 15⟩)] "vaccinationDate"
    (by decide)

/-- C9: with no interval configured, main performs exactly one find attempt
and reports its outcome without looping; with an interval configured, it
retries at that interval and stops at the first attempt whose find returns
True (attempt k being the first success means k + 1 attempts in total). -/
theorem main_attempt_count (interval fuel k : Nat) (outcomes : Nat → Bool)
    (hk : outcomes k = true) (hmin : ∀ j, j < k → outcomes j = false)
    (hfuel : k < fuel) :
    run_main none outcomes fuel = some (1, outcomes 0) ∧
    run_main (some interval) outcomes fuel = some (k + 1, true) := by
  refine ⟨rfl, ?_⟩
  have hres := poll_attempts_first_success outcomes fuel 0 k
    (by simpa using hk) (fun j hj => by simpa using hmin j hj) hfuel
  simp [run_main, hres]

/-- Witness for C9 at the spec scenario: the search fails three times and
succeeds on the fourth attempt, so the loop performs exactly 4 attempts; with
no interval a single attempt is made. -/
theorem main_attempt_count_witness :
    run_main none (fun n => n == 3) 10 = some (1, (fun n => n == 3) 0) ∧
    run_main (some 60) (fun n => n == 3) 10 = some (3 + 1, true) :=
  main_attempt_count 60 10 3 (fun n => n == 3) (by decide) (by decide)
    (by decide)

/-- C1 counterexample: a stored token 10 seconds away from expiry — well
inside the 30-second safety margin, as is_auth_token_expired itself reports —
is returned by auth_token unchanged, with no refresh and no state change at
all, in an environment where a refresh would have produced a fresh token. -/
theorem auth_token_returns_token_inside_margin :
    ImpfChecker.is_auth_token_expired ⟨some "tok", some 10, some "ref"⟩ 0 = true ∧
    ImpfChecker.auth_token ⟨some "tok", some 10, some "ref"⟩ 0
        ⟨200, true, 302, some "c", ⟨200, some ⟨"new", "newref", 300⟩⟩⟩ =
      .ok ⟨some "tok", some 10, some "ref"⟩ (some "tok") :=
  ⟨by decide, rfl⟩

/-- C1 amended: auth_token runs the full login flow when no token is stored
and otherwise returns the stored token unchanged with no expiry check; the
refresh of tokens within the 30-second safety margin is performed only by the
scheduled refresh_auth_token job, which returns immediately when the margin
is not reached and refreshes (assigning the fresh pair) when it is. -/
theorem auth_token_login_and_scheduled_refresh (s : ClientState) (now : Int)
    (env : LoginEnv) (rsp : TokenResponse) (t c : String) (b : TokenBody) :
    (s.auth_token = some t → ImpfChecker.auth_token s now env = .ok s (some t)) ∧
    (ImpfChecker.is_auth_token_expired s now = false →
      ImpfChecker.refresh_auth_token s now none rsp = .ok s) ∧
    (ImpfChecker.is_auth_token_expired s now = true →
      raise_for_status rsp.status = false → rsp.body = some b →
      ImpfChecker.refresh_auth_token s now none rsp =
        .ok ⟨some b.access_token, some (now + b.expires_in),
          some b.refresh_token⟩) ∧
    (s.auth_token = none → c ≠ "" →
      raise_for_status env.login_page_status = false →
      env.login_form_present = true →
      raise_for_status env.login_status = false →
      env.auth_code = some c →
      raise_for_status env.token_rsp.status = false →
      env.token_rsp.body = some b →
      ImpfChecker.auth_token s now env =
        .ok ⟨some b.access_token, some (now + b.expires_in),
            some b.refresh_token⟩
          (some b.access_token)) := by
  refine ⟨?_, ?_, ?_, ?_⟩
  · intro h
    simp [ImpfChecker.auth_token, h]
  · intro h
    simp [ImpfChecker.refresh_auth_token, str_opt_truthy, h]
  · intro h hr hb
    simp [ImpfChecker.refresh_auth_token, str_opt_truthy, h, hr, hb]
  · intro h hc h1 h2 h3 h4 h5 h6
    have hbeq : (c == "") = false := beq_eq_false_iff_ne.mpr hc
    simp [ImpfChecker.auth_token, h, ImpfChecker.login, h1, h2, h3, h4,
      ImpfChecker.refresh_auth_token, str_opt_truthy, hbeq, h5, h6]

/-- Witness for C1 amended: a token far from expiry is returned unchanged and
the scheduled refresh is a no-op on it; with no stored token the login flow
runs and returns the freshly exchanged token. -/
theorem auth_token_login_and_scheduled_refresh_witness :
    ImpfChecker.auth_token ⟨some "tok", some 1000, some "ref"⟩ 0
        ⟨200, true, 302, some "c", ⟨200, some ⟨"a", "r", 300⟩⟩⟩ =
      .ok ⟨some "tok", some 1000, some "ref"⟩ (some "tok") ∧
    ImpfChecker.refresh_auth_token ⟨some "tok", some 1000, some "ref"⟩ 0 none
        ⟨200, some ⟨"a", "r", 300⟩⟩ = .ok ⟨some "tok", some 1000, some "ref"⟩ ∧
    ImpfChecker.auth_token init_state 0
        ⟨200, true, 302, some "c", ⟨200, some ⟨"a", "r", 300⟩⟩⟩ =
      .ok ⟨some "a", some (0 + 300), some "r"⟩ (some "a") :=
  ⟨(auth_token_login_and_scheduled_refresh ⟨some "tok", some 1000, some "ref"⟩
      0 ⟨200, true, 302, some "c", ⟨200, some ⟨"a", "r", 300⟩⟩⟩
      ⟨200, some ⟨"a", "r", 300⟩⟩ "tok" "c" ⟨"a", "r", 300⟩).1 rfl,
   (auth_token_login_and_scheduled_refresh ⟨some "tok", some 1000, some "ref"⟩
      0 ⟨200, true, 302, some "c", ⟨200, some ⟨"a", "r", 300⟩⟩⟩
      ⟨200, some ⟨"a", "r", 300⟩⟩ "tok" "c" ⟨"a", "r", 300⟩).2.1 (by decide),
   (auth_token_login_and_scheduled_refresh init_state 0
      ⟨200, true, 302, some "c", ⟨200, some ⟨"a", "r", 300⟩⟩⟩
      ⟨200, some ⟨"a", "r", 300⟩⟩ "tok" "c" ⟨"a", "r", 300⟩).2.2.2 rfl
      (by decide) (by decide) rfl (by decide) rfl (by decide) rfl⟩

/-- C2 counterexample: a 500 response whose body decodes as JSON makes
_find_appointment return the payload, not None — 500 is not a 2xx status. -/
theorem search_returns_payload_on_500 :
    ImpfChecker.find_appointment init_state
        (AppointmentOptions.make none none false none none VaccinationType.BOOST)
        ⟨500, some [("vaccinationDate", PayloadVal.date ⟨2024, 1, 15⟩)]⟩ =
      .ok (init_state, some [("vaccinationDate", PayloadVal.date ⟨2024, 1, 15⟩)]) ∧
    (500 : Nat) / 100 ≠ 2 :=
  ⟨rfl, by decide⟩

/-- C2 amended: a 404 search response makes _find_appointment return None
without raising, and a 401 resets the session and returns None; every other
status — 2xx or not — is only logged, after which the body is decoded as JSON
and processed exactly like a success: a decodable body is returned as the
offer (subject to the latest-day filter) and an undecodable body raises. -/
theorem search_status_handling (s : ClientState) (opts : AppointmentOptions)
    (rsp : SearchResponse) (appt : Payload) :
    (rsp.status = 404 →
      ImpfChecker.find_appointment s opts rsp = .ok (s, none)) ∧
    (rsp.status = 401 →
      ImpfChecker.find_appointment s opts rsp =
        .ok (ImpfChecker.reset_session s, none)) ∧
    (rsp.status ≠ 404 → rsp.status ≠ 401 → rsp.body = some appt →
      opts.latest_day = none →
      ImpfChecker.find_appointment s opts rsp = .ok (s, some appt)) ∧
    (rsp.status ≠ 404 → rsp.status ≠ 401 → rsp.body = none →
      ImpfChecker.find_appointment s opts rsp = .error PyError.jsonError) := by
  refine ⟨?_, ?_, ?_, ?_⟩
  · intro h
    simp [ImpfChecker.find_appointment, h]
  · intro h
    simp [ImpfChecker.find_appointment, h]
  · intro h4 h1 hb hld
    simp [ImpfChecker.find_appointment, h4, h1, hb, hld]
  · intro h4 h1 hb
    simp [ImpfChecker.find_appointment, h4, h1, hb]

/-- Witness for C2 amended at concrete responses: 404 and 401 yield None, a
500 with a JSON body yields the body, a 500 without one raises. -/
theorem search_status_handling_witness :
    ImpfChecker.find_appointment init_state
        (AppointmentOptions.make none none false none none VaccinationType.BOOST)
        ⟨404, none⟩ = .ok (init_state, none) ∧
    ImpfChecker.find_appointment init_state
        (AppointmentOptions.make none none false none none VaccinationType.BOOST)
        ⟨401, none⟩ = .ok (ImpfChecker.reset_session init_state, none) ∧
    ImpfChecker.find_appointment init_state
        (AppointmentOptions.make none none false none none VaccinationType.BOOST)
        ⟨500, some []⟩ = .ok (init_state, some []) ∧
    ImpfChecker.find_appointment init_state
        (AppointmentOptions.make none none false none none VaccinationType.BOOST)
        ⟨500, none⟩ = .error PyError.jsonError :=
  ⟨(search_status_handling init_state
      (AppointmentOptions.make none none false none none VaccinationType.BOOST)
      ⟨404, none⟩ []).1 rfl,
   (search_status_handling init_state
      (AppointmentOptions.make none none false none none VaccinationType.BOOST)
      ⟨401, none⟩ []).2.1 rfl,
   (search_status_handling init_state
      (AppointmentOptions.make none none false none none VaccinationType.BOOST)
      ⟨500, some []⟩ []).2.2.1 (by decide) (by decide) rfl rfl,
   (search_status_handling init_state
      (AppointmentOptions.make none none false none none VaccinationType.BOOST)
      ⟨500, none⟩ []).2.2.2 (by decide) (by decide) rfl⟩

/-- C3 counterexample: a 401 from the booking endpoint and a 401 from the
appointment-list endpoint leave the stored token pair in place — only the
search path resets the session. -/
theorem book_and_print_keep_session_on_401 :
    ImpfChecker.book ⟨some "tok", some 1000, some "ref"⟩
        [("vaccinationDate", PayloadVal.date ⟨2024, 1, 15⟩)] 401 =
      .ok (⟨some "tok", some 1000, some "ref"⟩, false,
        [("vaccinationDate", PayloadVal.date ⟨2024, 1, 15⟩),
         ("reminderChannel", PayloadVal.reminder true true)]) ∧
    ImpfChecker.print_appointments ⟨some "tok", some 1000, some "ref"⟩
        ⟨401, none⟩ = (⟨some "tok", some 1000, some "ref"⟩, []) ∧
    (⟨some "tok", some 1000, some "ref"⟩ : ClientState).auth_token ≠ none :=
  ⟨rfl, rfl, by decide⟩

/-- C3 amended: only _find_appointment reacts to a 401 by resetting the
session (clearing both tokens before returning); _book and
print_appointments handle a 401 as a generic non-200 failure and leave the
session state unchanged. -/
theorem only_search_resets_session_on_401 (s : ClientState)
    (opts : AppointmentOptions) (rsp : SearchResponse) (payload : Payload)
    (u : UpcomingResponse) (h401 : rsp.status = 401) :
    (ImpfChecker.find_appointment s opts rsp =
        .ok (ImpfChecker.reset_session s, none) ∧
      (ImpfChecker.reset_session s).auth_token = none ∧
      (ImpfChecker.reset_session s).refresh_token = none) ∧
    ImpfChecker.book s payload 401 =
      .ok (s, false, ImpfChecker.book_request_body payload) ∧
    (u.status = 401 → ImpfChecker.print_appointments s u = (s, [])) := by
  refine ⟨⟨?_, rfl, rfl⟩, ?_, ?_⟩
  · simp [ImpfChecker.find_appointment, h401]
  · simp [ImpfChecker.book]
  · intro hu
    simp [ImpfChecker.print_appointments, hu]

/-- Witness for C3 amended at concrete 401 responses. -/
theorem only_search_resets_session_on_401_witness :
    (ImpfChecker.find_appointment ⟨some "t", some 1000, some "r"⟩
        (AppointmentOptions.make none none false none none VaccinationType.BOOST)
        ⟨401, none⟩ =
        .ok (ImpfChecker.reset_session ⟨some "t", some 1000, some "r"⟩, none) ∧
      (ImpfChecker.reset_session ⟨some "t", some 1000, some "r"⟩).auth_token =
        none ∧
      (ImpfChecker.reset_session ⟨some "t", some 1000, some "r"⟩).refresh_token =
        none) ∧
    ImpfChecker.book ⟨some "t", some 1000, some "r"⟩ [] 401 =
      .ok (⟨some "t", some 1000, some "r"⟩, false,
        ImpfChecker.book_request_body []) ∧
    ((⟨401, none⟩ : UpcomingResponse).status = 401 →
      ImpfChecker.print_appointments ⟨some "t", some 1000, some "r"⟩
        ⟨401, none⟩ = (⟨some "t", some 1000, some "r"⟩, [])) :=
  only_search_resets_session_on_401 ⟨some "t", some 1000, some "r"⟩
    (AppointmentOptions.make none none false none none VaccinationType.BOOST)
    ⟨401, none⟩ [] ⟨401, none⟩ rfl

/-- C4 counterexample: an AppointmentOptions value with dose type SECOND and
no prior-vaccine identifier is constructed successfully — the dataclass
constructor performs no validation, so no construction-time error exists. -/
theorem second_without_first_vaccine_constructed :
    (AppointmentOptions.make (some ⟨2024, 1, 1⟩) none false none none
        VaccinationType.SECOND).vaccination_type = VaccinationType.SECOND ∧
    (AppointmentOptions.make (some ⟨2024, 1, 1⟩) none false none none
        VaccinationType.SECOND).first_vaccine = none :=
  ⟨rfl, rfl⟩

/-- C4 amended: AppointmentOptions performs no construction-time validation
at all: a query with dose type SECOND and no prior-vaccine identifier is
constructed and stored as given, and the client proceeds to the search call
with it — the request simply omits the firstVaccinationVaccine parameter and
the search runs (here against a 404) instead of failing beforehand. -/
theorem second_dose_no_validation (e l : Option Date) (b : Bool)
    (v : Option Variant) (s : ClientState) (today : Date) (book_status : Nat) :
    (AppointmentOptions.make e l b v none
        VaccinationType.SECOND).vaccination_type = VaccinationType.SECOND ∧
    (AppointmentOptions.make e l b v none
        VaccinationType.SECOND).first_vaccine = none ∧
    (ImpfChecker.search_params (AppointmentOptions.make e l b v none
        VaccinationType.SECOND)).firstVaccinationVaccine = none ∧
    (ImpfChecker.search_params (AppointmentOptions.make e l b v none
        VaccinationType.SECOND)).vaccinationType = "SECOND" ∧
    (ImpfChecker.find s (AppointmentOptions.make e l b v none
        VaccinationType.SECOND) today ⟨404, none⟩ book_status).2 =
      .ok (s, false) := by
  refine ⟨rfl, rfl, rfl, rfl, ?_⟩
  cases e <;>
    simp [ImpfChecker.find, ImpfChecker.find_appointment,
      AppointmentOptions.make]

/-- C8 counterexample: find, called on a query whose earliest_day is unset,
mutates the query object — afterwards the object differs from the one that
was passed in and its earliest_day field holds the date of today. -/
theorem find_mutates_query_with_unset_earliest_day :
    (ImpfChecker.find init_state
        (AppointmentOptions.make none none false none none VaccinationType.BOOST)
        ⟨2024, 1, 10⟩ ⟨404, none⟩ 200).1 ≠
      AppointmentOptions.make none none false none none VaccinationType.BOOST ∧
    (ImpfChecker.find init_state
        (AppointmentOptions.make none none false none none VaccinationType.BOOST)
        ⟨2024, 1, 10⟩ ⟨404, none⟩ 200).1.earliest_day = some ⟨2024, 1, 10⟩ :=
  ⟨by decide, rfl⟩

/-- C8 amended: find leaves a query whose earliest_day is set completely
unmodified; when earliest_day is unset, find assigns the date of today to
that one field of the caller-supplied query object and changes nothing
else. -/
theorem find_mutates_options_only_when_earliest_unset (s : ClientState)
    (opts : AppointmentOptions) (today d : Date) (rsp : SearchResponse)
    (book_status : Nat) :
    (opts.earliest_day = some d →
      (ImpfChecker.find s opts today rsp book_status).1 = opts) ∧
    (opts.earliest_day = none →
      (ImpfChecker.find s opts today rsp book_status).1 =
        { opts with earliest_day := some today }) := by
  constructor
  · intro h
    simp [ImpfChecker.find, h]
  · intro h
    simp [ImpfChecker.find, h]

/-- Witness for C8 amended: a query with earliest_day set is returned
unchanged; one with earliest_day unset comes back with it set to today. -/
theorem find_mutates_options_only_when_earliest_unset_witness :
    (ImpfChecker.find init_state
        (AppointmentOptions.make (some ⟨2024, 1, 5⟩) none false none none
          VaccinationType.BOOST) ⟨2024, 1, 10⟩ ⟨404, none⟩ 200).1 =
      AppointmentOptions.make (some ⟨2024, 1, 5⟩) none false none none
        VaccinationType.BOOST ∧
    (ImpfChecker.find init_state
        (AppointmentOptions.make none (some ⟨2024, 1, 31⟩) false none none
          VaccinationType.BOOST) ⟨2024, 1, 10⟩ ⟨404, none⟩ 200).1 =
      { AppointmentOptions.make none (some ⟨2024, 1, 31⟩) false none none
          VaccinationType.BOOST with earliest_day := some ⟨2024, 1, 10⟩ } :=
  ⟨(find_mutates_options_only_when_earliest_unset init_state
      (AppointmentOptions.make (some ⟨2024, 1, 5⟩) none false none none
        VaccinationType.BOOST) ⟨2024, 1, 10⟩ ⟨2024, 1, 5⟩ ⟨404, none⟩ 200).1 rfl,
   (find_mutates_options_only_when_earliest_unset init_state
      (AppointmentOptions.make none (some ⟨2024, 1, 31⟩) false none none
        VaccinationType.BOOST) ⟨2024, 1, 10⟩ ⟨2024, 1, 5⟩ ⟨404, none⟩ 200).2 rfl⟩

/-- C10 counterexample: a 302 token-endpoint response is not a 2xx status,
yet raise_for_status does not raise on it (it raises only for 400 to 599),
so a 302 carrying a well-formed JSON body makes refresh_auth_token assign a
new token pair instead of raising and leaving the pair unchanged. -/
theorem refresh_assigns_tokens_on_302 :
    ImpfChecker.refresh_auth_token ⟨some "old", some 0, some "oldref"⟩ 0 none
        ⟨302, some ⟨"new", "newref", 300⟩⟩ =
      .ok ⟨some "new", some 300, some "newref"⟩ ∧
    (302 : Nat) / 100 ≠ 2 :=
  ⟨rfl, by decide⟩

/-- C10 amended: the access token and the refresh token are both None or both
set in every reachable state: __init__ and reset_session clear both together,
and refresh_auth_token either leaves the state untouched or assigns the full
fresh triple in a single step; the assignment happens after a token response
that is not a 4xx or 5xx error and decodes as JSON (raise_for_status raises
exactly for statuses 400 to 599, and any raise leaves the stored pair
unchanged). -/
theorem token_pair_invariant (s s' : ClientState) (now : Int)
    (code : Option String) (rsp : TokenResponse) :
    tokens_consistent init_state ∧
    tokens_consistent (ImpfChecker.reset_session s) ∧
    (ImpfChecker.refresh_auth_token s now code rsp = .ok s' →
      s' = s ∨ ∃ b, rsp.body = some b ∧
        s' = { auth_token := some b.access_token,
               auth_token_expiry := some (now + b.expires_in),
               refresh_token := some b.refresh_token }) ∧
    (tokens_consistent s →
      ImpfChecker.refresh_auth_token s now code rsp = .ok s' →
      tokens_consistent s') ∧
    (str_opt_truthy code = true → raise_for_status rsp.status = true →
      ImpfChecker.refresh_auth_token s now code rsp =
        .error PyError.httpError) := by
  have assign : ImpfChecker.refresh_auth_token s now code rsp = .ok s' →
      s' = s ∨ ∃ b, rsp.body = some b ∧
        s' = { auth_token := some b.access_token,
               auth_token_expiry := some (now + b.expires_in),
               refresh_token := some b.refresh_token } := by
    intro h
    unfold ImpfChecker.refresh_auth_token at h
    split at h
    · injection h with h'
      exact Or.inl h'.symm
    · split at h
      · exact absurd h (by simp)
      · split at h
        · exact absurd h (by simp)
        · rename_i b hb
          injection h with h'
          exact Or.inr ⟨b, hb, h'.symm⟩
  refine ⟨?_, ?_, assign, ?_, ?_⟩
  · simp [tokens_consistent, init_state]
  · simp [tokens_consistent, ImpfChecker.reset_session]
  · intro hs h
    rcases assign h with he | ⟨b, _, he⟩
    · rw [he]; exact hs
    · rw [he]; simp [tokens_consistent]
  · intro hcode hraise
    simp [ImpfChecker.refresh_auth_token, hcode, hraise]

/-- Witness for C10 amended: the freshly constructed and the reset state are
consistent; a refresh that assigns a new pair preserves consistency; a 500
token response raises. -/
theorem token_pair_invariant_witness :
    tokens_consistent init_state ∧
    tokens_consistent (ImpfChecker.reset_session ⟨some "t", some 1000, some "r"⟩) ∧
    tokens_consistent ⟨some "new", some 300, some "newref"⟩ ∧
    ImpfChecker.refresh_auth_token ⟨some "t", some 1000, some "r"⟩ 0 (some "c")
        ⟨500, none⟩ = .error PyError.httpError :=
  ⟨(token_pair_invariant init_state init_state 0 none ⟨200, none⟩).1,
   (token_pair_invariant ⟨some "t", some 1000, some "r"⟩ init_state 0 none
      ⟨200, none⟩).2.1,
   (token_pair_invariant ⟨some "old", some 0, some "oldref"⟩
      ⟨some "new", some 300, some "newref"⟩ 0 none
      ⟨200, some ⟨"new", "newref", 300⟩⟩).2.2.2.1
      (by simp [tokens_consistent]) rfl,
   (token_pair_invariant ⟨some "t", some 1000, some "r"⟩ init_state 0
      (some "c") ⟨500, none⟩).2.2.2.2 (by decide) (by decide)⟩

end ByImpf
